import Mathlib

/-!
# Verification of the BrainDrive bootstrapper service supervisor

A shallow embedding of the supervisor, dispatcher, downloader and process
control code of `packages/bootstrapper/src-tauri/src` (files `dispatcher.rs`,
`process_manager.rs`, `websocket.rs`), together with theorems settling the
specification's claims about it.

Conventions of the embedding:
* Machine integers (`u16`, `u32`, `u64`) are modelled as `Nat`; none of the
  modelled arithmetic can overflow in the source's range of use.
* Fallible Rust functions returning `Result<T, String>` become
  `Except String T`.
* The outside world (the TCP port prober, process spawning, `kill`, timed
  waits, HTTP transfers) is modelled as an explicit environment record passed
  to each operation: one field per external answer the source code consumes.
* Side effects that the claims talk about (lock acquisition and release,
  port probes, spawns, kills, sleeps and bounded waits) are reified as an
  event trace returned alongside the functional result.
-/

namespace BrainDrive

/-- Events performed by a supervisor operation, in program order.
`lockAcquire`/`lockRelease` delimit the critical sections of the
`SupervisorState` mutex; `stateRead`/`stateWrite` are the plain accesses of
the guarded record; the others are the external calls the spec's concurrency
discipline forbids under the lock. -/
inductive Ev where
  | lockAcquire : Ev
  | lockRelease : Ev
  | stateRead : Ev
  | stateWrite : Ev
  /-- `is_port_in_use(port)`: a TCP connect probe (a network call). -/
  | probe : Nat → Ev
  /-- `spawn_detached`: a process spawn. -/
  | spawn : Ev
  /-- `wait_for_port` / `wait_for_port_free`: a timed poll, seconds bound. -/
  | waitPort : Nat → Nat → Ev
  /-- `sleep`, in milliseconds. -/
  | sleepMs : Nat → Ev
  /-- `kill_process(pid)`. -/
  | kill : Nat → Ev
  /-- `kill_process_on_port(port)`. -/
  | killPortOwner : Nat → Ev
  deriving DecidableEq, Repr

/-- Is this event one of the plain state accesses (as opposed to an external
call)? Mirrors the spec's phrase "a plain read or plain write of the
record". -/
def Ev.isPlainAccess : Ev → Bool
  | Ev.stateRead => true
  | Ev.stateWrite => true
  | _ => false

/-- `lockPlainOnly tr inLock`: scanning the trace `tr`, every event strictly
inside a `lockAcquire`/`lockRelease` section is a plain state access. -/
def lockPlainOnly : List Ev → Bool → Bool
  | [], _ => true
  | Ev.lockAcquire :: tr, _ => lockPlainOnly tr true
  | Ev.lockRelease :: tr, _ => lockPlainOnly tr false
  | e :: tr, inLock =>
      if inLock && !e.isPlainAccess then false else lockPlainOnly tr inLock

/-- The lock flag after scanning a trace. -/
def lockState : List Ev → Bool → Bool
  | [], s => s
  | Ev.lockAcquire :: tr, _ => lockState tr true
  | Ev.lockRelease :: tr, _ => lockState tr false
  | _ :: tr, s => lockState tr s

/-- Is this event a mutex acquisition or release? -/
def Ev.isLockEvent : Ev → Bool
  | Ev.lockAcquire => true
  | Ev.lockRelease => true
  | _ => false

/-- A trace that never touches the mutex. -/
def noLock (l : List Ev) : Bool :=
  l.all fun e => !e.isLockEvent

/-- `ServiceInfo` of `process_manager.rs`: one record per managed service. -/
structure ServiceInfo where
  name : String
  pid : Option Nat
  port : Nat
  running : Bool
  deriving DecidableEq, Repr

/-- `BrainDriveState` of `process_manager.rs` (the spec's SupervisorState):
at most one `ServiceInfo` per slot. -/
structure BrainDriveState where
  backend : Option ServiceInfo := none
  frontend : Option ServiceInfo := none
  deriving DecidableEq, Repr

/-- Port fallback constants of `dispatcher.rs`: `BACKEND_PORTS`. -/
def BACKEND_PORTS : List Nat := [8005, 8006, 8007]

/-- Port fallback constants of `dispatcher.rs`: `FRONTEND_PORTS`. -/
def FRONTEND_PORTS : List Nat := [5173, 5174, 5175]

/-- The error text of `format!("No available backend ports. Tried: {}, {:?}",
backend_port, BACKEND_PORTS)`; `toString` of a `List Nat` renders like
Rust's `{:?}` of the array. -/
def noBackendPortsMsg (preferred : Nat) : String :=
  "No available backend ports. Tried: " ++ toString preferred ++ ", " ++
    toString BACKEND_PORTS

/-- The error text of `format!("No available frontend ports. Tried: {}, {:?}",
frontend_port, FRONTEND_PORTS)`. -/
def noFrontendPortsMsg (preferred : Nat) : String :=
  "No available frontend ports. Tried: " ++ toString preferred ++ ", " ++
    toString FRONTEND_PORTS

/-- `find_available_port` of `dispatcher.rs`: try the preferred port first,
then the fallbacks in order; `inUse` is the answer of `is_port_in_use`. -/
def find_available_port (inUse : Nat → Bool) (preferred : Nat)
    (fallbacks : List Nat) : Option Nat :=
  if !inUse preferred then
    some preferred
  else
    fallbacks.find? (fun p => !inUse p)

/-- The JSON object returned by `get_braindrive_status`. -/
structure StatusResult where
  backendPort : Nat
  backendRunning : Bool
  backendPid : Option Nat
  frontendPort : Nat
  frontendRunning : Bool
  frontendPid : Option Nat
  overallRunning : Bool
  deriving DecidableEq, Repr

/-- `get_braindrive_status` of `dispatcher.rs`. `inUse` is the port prober
`is_port_in_use`. The source holds the state mutex from its first line to
the end of the function, so both probes happen inside the critical
section — the returned trace records this. -/
def get_braindrive_status (inUse : Nat → Bool) (st : BrainDriveState) :
    StatusResult × List Ev :=
  let backendPort := (st.backend.map (fun b => b.port)).getD 8005
  let frontendPort := (st.frontend.map (fun f => f.port)).getD 5173
  let backendRunning := inUse backendPort
  let frontendRunning := inUse frontendPort
  ({ backendPort := backendPort
     backendRunning := backendRunning
     backendPid := st.backend.bind (fun b => b.pid)
     frontendPort := frontendPort
     frontendRunning := frontendRunning
     frontendPid := st.frontend.bind (fun f => f.pid)
     overallRunning := backendRunning && frontendRunning },
   [Ev.lockAcquire, Ev.stateRead, Ev.probe backendPort,
    Ev.probe frontendPort, Ev.lockRelease])

/-- The kill-events of a trace: the PIDs passed to `kill_process`. -/
def killedPids (tr : List Ev) : List Nat :=
  tr.filterMap fun e =>
    match e with
    | Ev.kill p => some p
    | _ => none

/-- How many processes a trace spawned. -/
def spawnCount (tr : List Ev) : Nat :=
  tr.countP fun e =>
    match e with
    | Ev.spawn => true
    | _ => false

/-- External answers consumed by one call of `start_braindrive`.
The filesystem preamble (`resolve_repo_path`, the three `exists()` checks)
is abstracted to its success/failure; the port prober is a fixed oracle for
the duration of the call; spawning and the two bounded port waits answer
through the remaining fields. -/
structure StartEnv where
  /-- `resolve_repo_path(None)`: `Ok` or its error message. -/
  repoResolve : Except String Unit
  /-- `repo_path.exists()`. -/
  repoExists : Bool
  /-- `backend_path.exists()`. -/
  backendDirExists : Bool
  /-- `frontend_path.exists()`. -/
  frontendDirExists : Bool
  /-- `is_port_in_use(p)` during this call. -/
  portInUse : Nat → Bool
  /-- `start_backend_service(..)`: the spawned PID, or the spawn error. -/
  backendSpawn : Except String (Option Nat)
  /-- `start_frontend_service(..)`. -/
  frontendSpawn : Except String (Option Nat)
  /-- `wait_for_port(actual_backend_port, 45)`. -/
  backendWaitOk : Bool
  /-- `wait_for_port(actual_frontend_port, 45)`. -/
  frontendWaitOk : Bool

/-- The JSON object `start_braindrive` returns on the `Ok` paths. Fields
absent from a given branch's JSON are `none` / `false` here; `partFlag`
models the JSON key named "partial". -/
structure StartResult where
  success : Bool
  message : String
  alreadyRunning : Bool := false
  partFlag : Bool := false
  backendPort : Option Nat := none
  frontendPort : Option Nat := none
  backendPid : Option Nat := none
  frontendPid : Option Nat := none
  backendAlreadyRunning : Option Bool := none
  frontendAlreadyRunning : Option Bool := none
  backendRunning : Option Bool := none
  frontendRunning : Option Bool := none
  errorMsg : Option String := none
  deriving DecidableEq, Repr

/-- Result of one call of `start_braindrive`: functional outcome, the state
after the call, and the event trace. -/
structure StartExec where
  outcome : Except String StartResult
  state : BrainDriveState
  events : List Ev
  deriving Repr

/-- Probe events of `find_available_port`'s scan of the fallback list
(`fallbacks.find?` probes each port until the first free one). -/
def probeUntilFree (inUse : Nat → Bool) : List Nat → List Ev
  | [] => []
  | p :: ps =>
      if !inUse p then [Ev.probe p] else Ev.probe p :: probeUntilFree inUse ps

/-- Probe events of one call of `find_available_port`. -/
def findPortEvents (inUse : Nat → Bool) (preferred : Nat)
    (fallbacks : List Nat) : List Ev :=
  if !inUse preferred then [Ev.probe preferred]
  else Ev.probe preferred :: probeUntilFree inUse fallbacks

/-- The `backend_already_running` / `frontend_already_running` check of
`start_braindrive`: a slot counts as already satisfied when its cached
record has `running = true` and a live probe of its recorded port
succeeds. Returns (already, actual port, pid, probe events); when the
slot is not satisfied the actual port stays the caller's preference. -/
def alreadyCheck (inUse : Nat → Bool) (rec : Option ServiceInfo)
    (preferredPort : Nat) : Bool × Nat × Option Nat × List Ev :=
  match rec with
  | some s =>
      if s.running then
        if inUse s.port then (true, s.port, s.pid, [Ev.probe s.port])
        else (false, preferredPort, none, [Ev.probe s.port])
      else (false, preferredPort, none, [])
  | none => (false, preferredPort, none, [])

/-- Result of one slot's start sequence inside `start_braindrive`. -/
inductive SlotStart where
  | noPorts : SlotStart
  | spawnFailed : String → SlotStart
  /-- `wait_for_port` timed out; the just-spawned PID (if any) was killed. -/
  | timedOut : Option Nat → SlotStart
  | started : Nat → Option Nat → SlotStart
  deriving DecidableEq, Repr

/-- The per-slot start block of `start_braindrive` (the source repeats it
once for each service): first-fit port selection, spawn of the service
script, bounded `wait_for_port(p, 45)`, and — when the wait times out —
`kill_process` of the just-spawned PID. -/
def startSlot (inUse : Nat → Bool) (spawn : Except String (Option Nat))
    (waitOk : Bool) (preferred : Nat) (fallbacks : List Nat) :
    SlotStart × List Ev :=
  match find_available_port inUse preferred fallbacks with
  | none => (SlotStart.noPorts, findPortEvents inUse preferred fallbacks)
  | some p =>
      match spawn with
      | Except.error e =>
          (SlotStart.spawnFailed e,
           findPortEvents inUse preferred fallbacks ++ [Ev.spawn])
      | Except.ok pid =>
          if waitOk then
            (SlotStart.started p pid,
             findPortEvents inUse preferred fallbacks ++
               [Ev.spawn, Ev.waitPort p 45])
          else
            (SlotStart.timedOut pid,
             findPortEvents inUse preferred fallbacks ++
               [Ev.spawn, Ev.waitPort p 45] ++
               (match pid with
                | some q => [Ev.kill q]
                | none => []))

/-- The backend-slot outcome of `start_braindrive`: skip the start when the
slot is already satisfied, otherwise map the slot-start outcome onto the
source's error strings ("no available ports", the spawn error, the
45-second timeout message). -/
def slotRunOrSkip (already : Bool) (cached : Nat × Option Nat)
    (slot : SlotStart × List Ev) (noPortsMsg timeoutMsg : String) :
    Except String (Nat × Option Nat) × List Ev :=
  if already then (Except.ok cached, [])
  else
    (match slot.1 with
     | SlotStart.noPorts => Except.error noPortsMsg
     | SlotStart.spawnFailed e => Except.error e
     | SlotStart.timedOut _ => Except.error timeoutMsg
     | SlotStart.started p pid => Except.ok (p, pid),
     slot.2)

/-- `start_braindrive` of `dispatcher.rs` (the Unix build). Control flow,
state mutation and the event trace follow the source line by line; the
path strings inside error messages are abstracted away, every other
message is the source's literal text. -/
def start_braindrive (env : StartEnv) (frontendPort backendPort : Nat)
    (st : BrainDriveState) : StartExec :=
  match env.repoResolve with
  | Except.error e => { outcome := Except.error e, state := st, events := [] }
  | Except.ok _ =>
  if !env.repoExists then
    { outcome := Except.error
        "BrainDrive is not installed. Please install it first."
      state := st, events := [] }
  else if !env.backendDirExists then
    { outcome := Except.error "Backend directory not found"
      state := st, events := [] }
  else if !env.frontendDirExists then
    { outcome := Except.error "Frontend directory not found"
      state := st, events := [] }
  else
  -- snapshot the shared state under the lock, then release
  let ev0 : List Ev := [Ev.lockAcquire, Ev.stateRead, Ev.lockRelease]
  let bCheck := alreadyCheck env.portInUse st.backend backendPort
  let fCheck := alreadyCheck env.portInUse st.frontend frontendPort
  let backendAlready := bCheck.1
  let frontendAlready := fCheck.1
  let ev1 := ev0 ++ bCheck.2.2.2 ++ fCheck.2.2.2
  if backendAlready && frontendAlready then
    { outcome := Except.ok
        { success := true
          message := "BrainDrive is already running"
          alreadyRunning := true
          backendPort := some bCheck.2.1
          frontendPort := some fCheck.2.1 }
      state := st, events := ev1 }
  else
  -- backend slot: start it unless already satisfied
  let bRun := slotRunOrSkip backendAlready (bCheck.2.1, bCheck.2.2.1)
    (startSlot env.portInUse env.backendSpawn env.backendWaitOk
      backendPort BACKEND_PORTS)
    (noBackendPortsMsg backendPort)
    "Backend failed to start within 45 seconds. Check ~/.braindrive-installer/logs/ for details."
  match bRun.1 with
  | Except.error e =>
      { outcome := Except.error e, state := st, events := ev1 ++ bRun.2 }
  | Except.ok bres =>
  let actualBackendPort := bres.1
  let backendPid := bres.2
  let bEvents := bRun.2
  -- frontend slot
  if frontendAlready then
    -- commit both records under the lock
    let st' : BrainDriveState :=
      { backend := some { name := "backend", pid := backendPid,
                          port := actualBackendPort, running := true }
        frontend := some { name := "frontend", pid := fCheck.2.2.1,
                           port := fCheck.2.1, running := true } }
    { outcome := Except.ok
        { success := true
          message := if backendAlready then
              "BrainDrive started (backend was already running, frontend was already running)"
            else "BrainDrive started (frontend was already running)"
          backendPort := some actualBackendPort
          frontendPort := some fCheck.2.1
          backendPid := backendPid
          frontendPid := fCheck.2.2.1
          backendAlreadyRunning := some backendAlready
          frontendAlreadyRunning := some true }
      state := st'
      events := ev1 ++ bEvents ++ [Ev.lockAcquire, Ev.stateWrite, Ev.lockRelease] }
  else
    let fRun := startSlot env.portInUse env.frontendSpawn env.frontendWaitOk
      frontendPort FRONTEND_PORTS
    match fRun.1 with
    | SlotStart.noPorts =>
        { outcome := Except.error (noFrontendPortsMsg frontendPort)
          state := st
          events := ev1 ++ bEvents ++ fRun.2 }
    | SlotStart.spawnFailed e =>
        { outcome := Except.error e, state := st
          events := ev1 ++ bEvents ++ fRun.2 }
    | SlotStart.timedOut _ =>
        -- frontend wait timed out: the slot already killed the frontend
        -- PID; return the partial result, leave the state untouched
        { outcome := Except.ok
            { success := false
              message := "Backend started but frontend failed to start within 45 seconds"
              partFlag := true
              backendPort := some actualBackendPort
              backendRunning := some true
              frontendRunning := some false
              errorMsg := some "Frontend startup timed out. Check ~/.braindrive-installer/logs/ for details." }
          state := st
          events := ev1 ++ bEvents ++ fRun.2 }
    | SlotStart.started fp2 fpid =>
        let st' : BrainDriveState :=
          { backend := some { name := "backend", pid := backendPid,
                              port := actualBackendPort, running := true }
            frontend := some { name := "frontend", pid := fpid,
                               port := fp2, running := true } }
        { outcome := Except.ok
            { success := true
              message := if backendAlready then
                  "BrainDrive started (backend was already running)"
                else "BrainDrive services started successfully"
              backendPort := some actualBackendPort
              frontendPort := some fp2
              backendPid := backendPid
              frontendPid := fpid
              backendAlreadyRunning := some backendAlready
              frontendAlreadyRunning := some false }
          state := st'
          events := ev1 ++ bEvents ++ fRun.2 ++
            [Ev.lockAcquire, Ev.stateWrite, Ev.lockRelease] }

/-- External answers consumed by one call of `stop_braindrive`. -/
structure StopEnv where
  /-- `kill_process(pid)` result. -/
  killPid : Nat → Bool
  /-- `kill_process_on_port(port)` result. -/
  killPort : Nat → Bool
  /-- `wait_for_port_free(port, 5)` result. -/
  portFreed : Nat → Bool
  /-- `is_port_in_use(port)` in the final success computation. -/
  portInUseAfter : Nat → Bool

/-- The JSON object `stop_braindrive` returns. -/
structure StopResult where
  success : Bool
  message : String
  backendStopped : Bool
  frontendStopped : Bool
  deriving DecidableEq, Repr

/-- One service slot's kill phase inside `stop_braindrive`: kill by PID
first, fall back to kill by port; with no record, kill by the default
port. Returns (stopped, port used, events). -/
def stopSlot (env : StopEnv) (rec : Option ServiceInfo) (defaultPort : Nat) :
    Bool × Nat × List Ev :=
  match rec with
  | some s =>
      let byPid : Bool × List Ev :=
        match s.pid with
        | some pid => (env.killPid pid, [Ev.kill pid])
        | none => (false, [])
      if byPid.1 then (true, s.port, byPid.2)
      else (env.killPort s.port, s.port, byPid.2 ++ [Ev.killPortOwner s.port])
  | none => (env.killPort defaultPort, defaultPort, [Ev.killPortOwner defaultPort])

/-- `stop_braindrive` of `dispatcher.rs`: snapshot the state, kill each
slot (PID first, then port), wait for both ports to free, then mark both
cached records stopped under the lock regardless of kill success. -/
def stop_braindrive (env : StopEnv) (st : BrainDriveState) :
    StopResult × BrainDriveState × List Ev :=
  let ev0 : List Ev := [Ev.lockAcquire, Ev.stateRead, Ev.lockRelease]
  let b := stopSlot env st.backend 8005
  let f := stopSlot env st.frontend 5173
  let backendPort := b.2.1
  let frontendPort := f.2.1
  let backendFreed := env.portFreed backendPort
  let frontendFreed := env.portFreed frontendPort
  let st' : BrainDriveState :=
    { backend := st.backend.map (fun s => { s with running := false, pid := none })
      frontend := st.frontend.map (fun s => { s with running := false, pid := none }) }
  -- `stopped || !is_port_in_use(port)`: the probe runs only when needed
  let backendOk := b.1 || !env.portInUseAfter backendPort
  let frontendOk := f.1 || !env.portInUseAfter frontendPort
  let success := backendOk && frontendOk
  ({ success := success
     message := if success then "BrainDrive services stopped"
       else "Some services may still be running"
     backendStopped := b.1 || backendFreed
     frontendStopped := f.1 || frontendFreed },
   st',
   ev0 ++ b.2.2 ++ f.2.2 ++
     [Ev.waitPort backendPort 5, Ev.waitPort frontendPort 5,
      Ev.lockAcquire, Ev.stateWrite, Ev.lockRelease] ++
     (if b.1 then [] else [Ev.probe backendPort]) ++
     (if f.1 then [] else [Ev.probe frontendPort]))

/-- The JSON object `restart_braindrive` returns: an unconditional
`success: true` wrapping the embedded stop and start results. -/
structure RestartResult where
  success : Bool
  message : String
  stopResult : StopResult
  startResult : StartResult
  deriving DecidableEq, Repr

/-- `restart_braindrive` of `dispatcher.rs`: stop, pause 500ms, start;
a start-level `Err` propagates, otherwise the result is
`success: true` with both sub-results embedded. -/
def restart_braindrive (stopEnv : StopEnv) (startEnv : StartEnv)
    (frontendPort backendPort : Nat) (st : BrainDriveState) :
    Except String RestartResult × BrainDriveState × List Ev :=
  let stopStep := stop_braindrive stopEnv st
  let startStep := start_braindrive startEnv frontendPort backendPort stopStep.2.1
  let events := stopStep.2.2 ++ [Ev.sleepMs 500] ++ startStep.events
  match startStep.outcome with
  | Except.error e => (Except.error e, startStep.state, events)
  | Except.ok r =>
      (Except.ok
        { success := true
          message := "BrainDrive services restarted"
          stopResult := stopStep.1
          startResult := r },
       startStep.state, events)

/-! ## Process control: `kill_process` (Unix build of `process_manager.rs`) -/

/-- Ground truth and command answers around one `kill_process(pid)` call. -/
structure ProcEnv where
  /-- Does the process exist when `kill -TERM` is sent? -/
  alive0 : Bool
  /-- Does the `kill -TERM` command report success? -/
  termOk : Bool
  /-- `is_pid_running(pid)` after the 500ms grace sleep. -/
  aliveAfterGrace : Bool
  /-- Ground truth: is the process still alive after `kill -KILL` was
  sent? `kill -KILL` delivery does not guarantee disappearance (the source
  ignores its status and never re-checks). -/
  aliveAfterKill : Bool

/-- Observable outcome of one `kill_process` call. -/
structure KillExec where
  /-- The `bool` the function returns. -/
  ret : Bool
  /-- Was `kill -KILL` sent? -/
  sentForceKill : Bool
  /-- Milliseconds of grace sleep before the force-kill decision. -/
  graceMs : Nat
  /-- Ground truth: is the process still alive when the call returns? -/
  finalAlive : Bool
  deriving DecidableEq, Repr

/-- `kill_process` of `process_manager.rs` (Unix): send SIGTERM; if that
command succeeded, sleep 500ms, force-kill if still running, and return
`true`; return `false` only when the SIGTERM command failed. -/
def kill_process (env : ProcEnv) : KillExec :=
  if env.termOk then
    if env.aliveAfterGrace then
      { ret := true, sentForceKill := true, graceMs := 500
        finalAlive := env.aliveAfterKill }
    else
      { ret := true, sentForceKill := false, graceMs := 500
        finalAlive := false }
  else
    { ret := false, sentForceKill := false, graceMs := 0
      finalAlive := env.alive0 }

/-! ## Resilient downloader (`download_file_with_progress`, Unix build) -/

/-- `DOWNLOAD_MAX_RETRIES` of `dispatcher.rs`. -/
def DOWNLOAD_MAX_RETRIES : Nat := 3

/-- `DOWNLOAD_RETRY_DELAY_SECS` of `dispatcher.rs`. -/
def DOWNLOAD_RETRY_DELAY_SECS : Nat := 2

/-- Transport answers for one download: the result of each 1-based HTTP
attempt, and of the curl fallback. -/
structure DlEnv where
  attemptResult : Nat → Except String Unit
  curlResult : Except String Unit

/-- Accumulated observation of the HTTP retry loop. -/
structure AttemptsOut where
  ok : Bool
  /-- `last_error`: the error of the last failed attempt. -/
  lastError : Option String
  attemptsMade : Nat
  /-- `remove_file(dest)` calls (one after every failed attempt). -/
  deletions : Nat
  /-- The `sleep` durations between attempts, in seconds. -/
  delaysSecs : List Nat
  deriving DecidableEq, Repr

/-- The `for attempt in 1..=DOWNLOAD_MAX_RETRIES` loop of
`download_file_with_progress`, over the list of remaining attempt
numbers: stop at the first success; on failure delete the partial file
and, if attempts remain, sleep `DOWNLOAD_RETRY_DELAY_SECS * attempt`. -/
def runAttempts (env : DlEnv) : List Nat → AttemptsOut
  | [] =>
      { ok := false, lastError := none, attemptsMade := 0, deletions := 0
        delaysSecs := [] }
  | a :: rest =>
      match env.attemptResult a with
      | Except.ok _ =>
          { ok := true, lastError := none, attemptsMade := 1, deletions := 0
            delaysSecs := [] }
      | Except.error e =>
          let delay := if rest.isEmpty then []
            else [DOWNLOAD_RETRY_DELAY_SECS * a]
          let tail := runAttempts env rest
          { ok := tail.ok
            lastError := if tail.attemptsMade = 0 then some e else tail.lastError
            attemptsMade := 1 + tail.attemptsMade
            deletions := 1 + tail.deletions
            delaysSecs := delay ++ tail.delaysSecs }

/-- Observable outcome of one `download_file_with_progress` call. -/
structure DlExec where
  outcome : Except String Unit
  httpAttempts : Nat
  deletions : Nat
  delaysSecs : List Nat
  curlRuns : Nat
  deriving Repr

/-- `download_file_with_progress` of `dispatcher.rs` (the non-Windows
build, which has the curl fallback): up to 3 HTTP attempts, then one curl
invocation; if curl also fails, the error combines the last HTTP error
and the curl error. -/
def download_file_with_progress (env : DlEnv) : DlExec :=
  let att := runAttempts env
    ((List.range DOWNLOAD_MAX_RETRIES).map (fun i => i + 1))
  if att.ok then
    { outcome := Except.ok (), httpAttempts := att.attemptsMade
      deletions := att.deletions, delaysSecs := att.delaysSecs, curlRuns := 0 }
  else
    match env.curlResult with
    | Except.ok _ =>
        { outcome := Except.ok (), httpAttempts := att.attemptsMade
          deletions := att.deletions, delaysSecs := att.delaysSecs
          curlRuns := 1 }
    | Except.error curlErr =>
        let combined :=
          match att.lastError with
          | some err => err ++ " | curl fallback failed: " ++ curlErr
          | none => "curl fallback failed: " ++ curlErr
        { outcome := Except.error
            ("Download failed after " ++ toString DOWNLOAD_MAX_RETRIES ++
              " attempts: " ++ combined)
          httpAttempts := att.attemptsMade, deletions := att.deletions
          delaysSecs := att.delaysSecs, curlRuns := 1 }

/-- One `progress` message of the streaming loop. -/
structure ProgressMsg where
  percent : Nat
  bytesDownloaded : Nat
  bytesTotal : Nat
  deriving DecidableEq, Repr

/-- The chunk loop of `download_file_with_progress_once`: `chunks` are the
byte counts of the received chunks, `downloaded` and `lastPercent` the
loop's accumulators. The source computes
`((downloaded as f64 / total as f64) * 50.0) as u8` — i.e. a truncated
0–50 scale — which this models in exact arithmetic as
`downloaded * 50 / total`; a message is sent only when that value exceeds
`last_percent`, and only when the total size is known. -/
def download_stream_progress (total : Option Nat) :
    List Nat → Nat → Nat → List ProgressMsg
  | [], _, _ => []
  | c :: rest, downloaded, lastPercent =>
      let d := downloaded + c
      match total with
      | none => download_stream_progress none rest d lastPercent
      | some t =>
          let percent := d * 50 / t
          if lastPercent < percent then
            { percent := percent, bytesDownloaded := d, bytesTotal := t } ::
              download_stream_progress (some t) rest d percent
          else
            download_stream_progress (some t) rest d lastPercent

/-! ## Command dispatcher (`websocket.rs`) -/

/-- `IncomingMessage` of `websocket.rs`: the decoded inbound frame. Every
command variant carries its correlation `id`; `statusUpdate` is the
informational message from the remote side and `unknown` the serde
catch-all for unrecognized tags. -/
inductive IncomingMessage where
  | detectSystem (id : String)
  | installCondaEnv (id : String) (envName : String)
      (repoPath environmentFile : Option String)
  | installOllama (id : String)
  | startOllama (id : String)
  | pullOllamaModel (id : String) (model : String)
      (registry : Option String) (force : Option Bool)
  | checkPort (id : String) (port : Nat)
  | cloneRepo (id : String) (repoUrl targetPath : Option String)
  | createCondaEnv (id : String) (envName : Option String)
  | installBackendDeps (id : String) (envName repoPath : Option String)
  | installFrontendDeps (id : String) (repoPath : Option String)
  | setupEnvFile (id : String) (repoPath : Option String)
  | startBraindrive (id : String) (frontendPort backendPort : Nat)
  | stopBraindrive (id : String)
  | restartBraindrive (id : String)
  | statusUpdate (bootstrapperConnected : Bool)
  | unknown
  deriving DecidableEq, Repr

/-- The correlation id of a message, when the variant carries one. -/
def IncomingMessage.msgId : IncomingMessage → Option String
  | IncomingMessage.detectSystem id => some id
  | IncomingMessage.installCondaEnv id _ _ _ => some id
  | IncomingMessage.installOllama id => some id
  | IncomingMessage.startOllama id => some id
  | IncomingMessage.pullOllamaModel id _ _ _ => some id
  | IncomingMessage.checkPort id _ => some id
  | IncomingMessage.cloneRepo id _ _ => some id
  | IncomingMessage.createCondaEnv id _ => some id
  | IncomingMessage.installBackendDeps id _ _ => some id
  | IncomingMessage.installFrontendDeps id _ => some id
  | IncomingMessage.setupEnvFile id _ => some id
  | IncomingMessage.startBraindrive id _ _ => some id
  | IncomingMessage.stopBraindrive id => some id
  | IncomingMessage.restartBraindrive id => some id
  | IncomingMessage.statusUpdate _ => none
  | IncomingMessage.unknown => none

/-- `OutgoingMessage` of `websocket.rs`. The `serde_json::Value` payload is
abstracted to an opaque `String` token — none of the claims inspects it. -/
inductive OutgoingMessage where
  | bootstrapperConnect
  | toolResult (id : String) (success : Bool)
      (data : Option String) (error : Option String)
  | progress (id : String) (operation : String) (percent : Option Nat)
      (message : String)
  deriving DecidableEq, Repr

/-- Is this outgoing message a `ToolResult`? -/
def OutgoingMessage.isToolResult : OutgoingMessage → Bool
  | OutgoingMessage.toolResult _ _ _ _ => true
  | _ => false

/-- The answers the dispatched handlers produce, one per command kind;
`Except.error` is a handler failure. `pullProgress` is the sequence of
`(operation, percent, message)` progress events
`pull_ollama_model_with_progress` emits while it runs — the only wired
handler that emits progress. -/
structure HandlerEnv where
  detectSystem : Except String String
  installCondaEnv : Except String String
  installOllama : Except String String
  startOllama : Except String String
  pullOllamaModel : Except String String
  pullProgress : List (String × Option Nat × String)
  checkPort : Except String String
  cloneRepo : Except String String
  createCondaEnv : Except String String
  installBackendDeps : Except String String
  installFrontendDeps : Except String String
  setupEnvFile : Except String String
  startBraindrive : Except String String
  stopBraindrive : Except String String
  restartBraindrive : Except String String

/-- `send_tool_result` of `websocket.rs`: an `Ok` payload becomes
`success: true`, a handler error becomes `success: false` with the
error message. -/
def send_tool_result (id : String) :
    Except String String → OutgoingMessage
  | Except.ok data => OutgoingMessage.toolResult id true (some data) none
  | Except.error e => OutgoingMessage.toolResult id false none (some e)

/-- `handle_incoming_message` of `websocket.rs`, as the list of protocol
messages it emits for one inbound frame (the Tauri UI events it also
fires are not protocol traffic and are omitted). Every command arm runs
its handler and finishes with exactly one `send_tool_result`; the
`statusUpdate` and `unknown` arms do nothing. -/
def handle_incoming_message (env : HandlerEnv) :
    IncomingMessage → List OutgoingMessage
  | IncomingMessage.detectSystem id => [send_tool_result id env.detectSystem]
  | IncomingMessage.installCondaEnv id _ _ _ =>
      [send_tool_result id env.installCondaEnv]
  | IncomingMessage.installOllama id => [send_tool_result id env.installOllama]
  | IncomingMessage.startOllama id => [send_tool_result id env.startOllama]
  | IncomingMessage.pullOllamaModel id _ _ _ =>
      env.pullProgress.map
        (fun pe => OutgoingMessage.progress id pe.1 pe.2.1 pe.2.2) ++
        [send_tool_result id env.pullOllamaModel]
  | IncomingMessage.checkPort id _ => [send_tool_result id env.checkPort]
  | IncomingMessage.cloneRepo id _ _ => [send_tool_result id env.cloneRepo]
  | IncomingMessage.createCondaEnv id _ =>
      [send_tool_result id env.createCondaEnv]
  | IncomingMessage.installBackendDeps id _ _ =>
      [send_tool_result id env.installBackendDeps]
  | IncomingMessage.installFrontendDeps id _ =>
      [send_tool_result id env.installFrontendDeps]
  | IncomingMessage.setupEnvFile id _ => [send_tool_result id env.setupEnvFile]
  | IncomingMessage.startBraindrive id _ _ =>
      [send_tool_result id env.startBraindrive]
  | IncomingMessage.stopBraindrive id =>
      [send_tool_result id env.stopBraindrive]
  | IncomingMessage.restartBraindrive id =>
      [send_tool_result id env.restartBraindrive]
  | IncomingMessage.statusUpdate _ => []
  | IncomingMessage.unknown => []

/-- The handler result routed to a given command variant (the
`dispatcher::...` call of its arm). `none` for the two silent variants. -/
def routedResult (env : HandlerEnv) :
    IncomingMessage → Option (Except String String)
  | IncomingMessage.detectSystem _ => some env.detectSystem
  | IncomingMessage.installCondaEnv _ _ _ _ => some env.installCondaEnv
  | IncomingMessage.installOllama _ => some env.installOllama
  | IncomingMessage.startOllama _ => some env.startOllama
  | IncomingMessage.pullOllamaModel _ _ _ _ => some env.pullOllamaModel
  | IncomingMessage.checkPort _ _ => some env.checkPort
  | IncomingMessage.cloneRepo _ _ _ => some env.cloneRepo
  | IncomingMessage.createCondaEnv _ _ => some env.createCondaEnv
  | IncomingMessage.installBackendDeps _ _ _ => some env.installBackendDeps
  | IncomingMessage.installFrontendDeps _ _ => some env.installFrontendDeps
  | IncomingMessage.setupEnvFile _ _ => some env.setupEnvFile
  | IncomingMessage.startBraindrive _ _ _ => some env.startBraindrive
  | IncomingMessage.stopBraindrive _ => some env.stopBraindrive
  | IncomingMessage.restartBraindrive _ => some env.restartBraindrive
  | IncomingMessage.statusUpdate _ => none
  | IncomingMessage.unknown => none

/-! ## Specification helpers and concrete fixtures -/

/-- Cumulative byte counts after each chunk, starting from `d`. -/
def cumSums (d : Nat) : List Nat → List Nat
  | [] => []
  | c :: rest => (d + c) :: cumSums (d + c) rest

/-- The subsequence of values that strictly exceed every value before them
(and the seed `lp`): the crossings of a new maximum. -/
def newMaxima (lp : Nat) : List Nat → List Nat
  | [] => []
  | p :: ps => if lp < p then p :: newMaxima p ps else newMaxima lp ps

/-- Does this outcome carry the partial-failure JSON
(`success: false, "partial": true`)? -/
def isOkPartialFailure : Except String StartResult → Bool
  | Except.ok r => !r.success && r.partFlag
  | Except.error _ => false

/-- A concrete environment: installation present, every port free, both
spawns succeed (PIDs 100 and 200), the backend's port comes up, the
frontend's never does. -/
def cexStartEnv : StartEnv :=
  { repoResolve := Except.ok ()
    repoExists := true
    backendDirExists := true
    frontendDirExists := true
    portInUse := fun _ => false
    backendSpawn := Except.ok (some 100)
    frontendSpawn := Except.ok (some 200)
    backendWaitOk := true
    frontendWaitOk := false }

/-- `start_braindrive` run in `cexStartEnv` from the empty supervisor
state with the default preferred ports. -/
def cexStartExec : StartExec :=
  start_braindrive cexStartEnv 5173 8005 {}

/-- A concrete handler environment where the `stop_braindrive` handler
fails and the model-pull handler emits two progress events. -/
def cexHandlerEnv : HandlerEnv :=
  { detectSystem := Except.ok "sys"
    installCondaEnv := Except.ok "env"
    installOllama := Except.ok "ollama"
    startOllama := Except.ok "started"
    pullOllamaModel := Except.ok "model"
    pullProgress := [("pull_ollama_model", some 10, "Downloading..."),
                     ("pull_ollama_model", some 90, "Almost done")]
    checkPort := Except.ok "port"
    cloneRepo := Except.ok "repo"
    createCondaEnv := Except.ok "created"
    installBackendDeps := Except.ok "deps"
    installFrontendDeps := Except.ok "deps"
    setupEnvFile := Except.ok "envfile"
    startBraindrive := Except.ok "up"
    stopBraindrive := Except.error "stop failed"
    restartBraindrive := Except.ok "restarted" }

/-- A concrete download environment where every transport fails. -/
def cexDlEnv : DlEnv :=
  { attemptResult := fun _ => Except.error "connection reset"
    curlResult := Except.error "curl exit 6" }

/-- A concrete stop environment where every kill and wait succeeds. -/
def cexStopEnv : StopEnv :=
  { killPid := fun _ => true
    killPort := fun _ => true
    portFreed := fun _ => true
    portInUseAfter := fun _ => false }

/-- A process that survives SIGTERM and even the ignored SIGKILL (for
example a zombie, or a task stuck in uninterruptible sleep). -/
def stubbornProc : ProcEnv :=
  { alive0 := true, termOk := true
    aliveAfterGrace := true, aliveAfterKill := true }

/-- A process that terminates within the 500ms grace period. -/
def gracefulProc : ProcEnv :=
  { alive0 := true, termOk := true
    aliveAfterGrace := false, aliveAfterKill := false }

/-- The restart result produced in the concrete environments above (the
error fallback is unreachable there). -/
def cexRestartRes : RestartResult :=
  match (restart_braindrive cexStopEnv cexStartEnv 5173 8005 {}).1 with
  | Except.ok r => r
  | Except.error _ =>
      { success := false, message := ""
        stopResult := { success := false, message := ""
                        backendStopped := false, frontendStopped := false }
        startResult := { success := false, message := "" } }

/-- A concrete environment where the preferred backend port 8005 is
occupied (as is the frontend's 5173, which belongs to the already-running
frontend) while fallback 8006 is free. -/
def busyPortsEnv : StartEnv :=
  { repoResolve := Except.ok ()
    repoExists := true
    backendDirExists := true
    frontendDirExists := true
    portInUse := fun p => p == 8005 || p == 5173
    backendSpawn := Except.ok (some 100)
    frontendSpawn := Except.ok (some 200)
    backendWaitOk := true
    frontendWaitOk := true }

/-- A state whose frontend slot is tracked and running on 5173 and whose
backend slot is empty. -/
def frontendOnlyState : BrainDriveState :=
  { backend := none
    frontend := some { name := "frontend", pid := some 42, port := 5173,
                       running := true } }

/-! ## Shared lemmas -/

theorem lockPlainOnly_append (a b : List Ev) (s : Bool) :
    lockPlainOnly (a ++ b) s =
      (lockPlainOnly a s && lockPlainOnly b (lockState a s)) := by
  induction a generalizing s with
  | nil => simp [lockPlainOnly, lockState]
  | cons e tr ih =>
      cases e <;> simp [lockPlainOnly, lockState, Ev.isPlainAccess, ih] <;>
        cases s <;> simp

theorem noLock_lockPlainOnly (l : List Ev) (h : noLock l = true) :
    lockPlainOnly l false = true ∧ lockState l false = false := by
  induction l with
  | nil => simp [lockPlainOnly, lockState]
  | cons e tr ih =>
      simp only [noLock, List.all_cons, Bool.and_eq_true] at h
      have htr := ih h.2
      cases e <;> simp_all [lockPlainOnly, lockState, Ev.isPlainAccess,
        Ev.isLockEvent, noLock]

theorem noLock_append (a b : List Ev) :
    noLock (a ++ b) = (noLock a && noLock b) := by
  simp [noLock, List.all_append]

theorem noLock_probeUntilFree (inUse : Nat → Bool) (l : List Nat) :
    noLock (probeUntilFree inUse l) = true := by
  induction l with
  | nil => simp [probeUntilFree, noLock]
  | cons p ps ih =>
      by_cases h : inUse p
      · simpa [probeUntilFree, h, noLock, Ev.isLockEvent, List.all_eq_true]
          using ih
      · simp [probeUntilFree, h, noLock, Ev.isLockEvent]

theorem noLock_findPortEvents (inUse : Nat → Bool) (preferred : Nat)
    (fb : List Nat) : noLock (findPortEvents inUse preferred fb) = true := by
  by_cases h : inUse preferred
  · simpa [findPortEvents, h, noLock, Ev.isLockEvent, List.all_eq_true]
      using noLock_probeUntilFree inUse fb
  · simp [findPortEvents, h, noLock, Ev.isLockEvent]

/-! ## C7: status re-probes instead of trusting the cache -/

/-- **C7**: `status()` never trusts the cached `running` flag: it re-probes
the recorded ports (or the hard defaults 8005/5173 when a slot has no
record) on every call, returns per-slot port, running and pid, and
`overall_running` is the conjunction of the two live probe answers; hence
a slot whose tracked process died out-of-band is reported
`running = false`. -/
theorem get_braindrive_status_reprobes (inUse : Nat → Bool)
    (st : BrainDriveState) :
    ((get_braindrive_status inUse st).1.backendPort =
        (st.backend.map (fun b => b.port)).getD 8005) ∧
    ((get_braindrive_status inUse st).1.frontendPort =
        (st.frontend.map (fun f => f.port)).getD 5173) ∧
    ((get_braindrive_status inUse st).1.backendRunning =
        inUse ((st.backend.map (fun b => b.port)).getD 8005)) ∧
    ((get_braindrive_status inUse st).1.frontendRunning =
        inUse ((st.frontend.map (fun f => f.port)).getD 5173)) ∧
    ((get_braindrive_status inUse st).1.backendPid =
        st.backend.bind (fun b => b.pid)) ∧
    ((get_braindrive_status inUse st).1.frontendPid =
        st.frontend.bind (fun f => f.pid)) ∧
    ((get_braindrive_status inUse st).1.overallRunning =
        ((get_braindrive_status inUse st).1.backendRunning &&
          (get_braindrive_status inUse st).1.frontendRunning)) ∧
    (∀ b, st.backend = some b → b.running = true → inUse b.port = false →
        (get_braindrive_status inUse st).1.backendRunning = false) ∧
    (∀ f, st.frontend = some f → f.running = true → inUse f.port = false →
        (get_braindrive_status inUse st).1.frontendRunning = false) := by
  refine ⟨rfl, rfl, rfl, rfl, rfl, rfl, rfl, ?_, ?_⟩
  · intro b hb _ hi
    simp [get_braindrive_status, hb, hi]
  · intro f hf _ hi
    simp [get_braindrive_status, hf, hi]

/-- Witness for C7: a backend record cached as running on port 8005 whose
process is gone (the prober answers false everywhere) is reported
`running = false`. -/
theorem get_braindrive_status_reprobes_witness :
    (get_braindrive_status (fun _ => false)
      { backend := some { name := "backend", pid := some 11, port := 8005,
                          running := true }
        frontend := some { name := "frontend", pid := some 12, port := 5173,
                           running := true } }).1.backendRunning = false :=
  (get_braindrive_status_reprobes (fun _ => false)
    { backend := some { name := "backend", pid := some 11, port := 8005,
                        running := true }
      frontend := some { name := "frontend", pid := some 12, port := 5173,
                         running := true } }).2.2.2.2.2.2.2.1
    { name := "backend", pid := some 11, port := 8005, running := true }
    rfl rfl rfl

/-! ## C10: restart reports success independently of the start outcome -/

/-- **C10**: whenever `stop_braindrive` and the subsequent
`start_braindrive` both return without a top-level error (stop never
errors in the source), `restart_braindrive` reports `success = true` in
its own result, with the embedded `start_result` equal to whatever start
returned — even when that embedded result carries `success = false`. -/
theorem restart_reports_success_unconditionally (stopEnv : StopEnv)
    (startEnv : StartEnv) (fp bp : Nat) (st : BrainDriveState)
    (res : RestartResult)
    (h : (restart_braindrive stopEnv startEnv fp bp st).1 = Except.ok res) :
    res.success = true ∧
    res.message = "BrainDrive services restarted" ∧
    res.stopResult = (stop_braindrive stopEnv st).1 ∧
    (start_braindrive startEnv fp bp
        (stop_braindrive stopEnv st).2.1).outcome =
      Except.ok res.startResult := by
  revert h
  rcases hs : (start_braindrive startEnv fp bp
      (stop_braindrive stopEnv st).2.1).outcome with e | r
  · intro h
    exact absurd h (by simp [restart_braindrive, hs])
  · intro h
    have : res = { success := true, message := "BrainDrive services restarted",
                   stopResult := (stop_braindrive stopEnv st).1,
                   startResult := r } := by
      have h' := h
      simp only [restart_braindrive, hs] at h'
      exact (Except.ok.injEq _ _).mp h'.symm
    subst this
    exact ⟨rfl, rfl, rfl, rfl⟩

/-- Witness for C10: in `cexStartEnv` the restarted start ends in the
partial-failure result (`success = false`), yet restart's own result has
`success = true`. -/
theorem restart_reports_success_unconditionally_witness :
    (restart_braindrive cexStopEnv cexStartEnv 5173 8005 {}).1 =
        Except.ok cexRestartRes ∧
      cexRestartRes.success = true ∧
      cexRestartRes.startResult.success = false :=
  ⟨rfl,
   (restart_reports_success_unconditionally cexStopEnv cexStartEnv
      5173 8005 {} cexRestartRes rfl).1,
   rfl⟩

/-! ## C6: kill escalation -/

/-- **C6 counterexample**: a process whose SIGTERM delivery succeeds, which
survives the 500ms grace, and which also survives the ignored `kill -KILL`
(e.g. a zombie or a task in uninterruptible sleep) makes `kill_process`
return `true` while the PID still exists — refuting "the true return value
implies the process no longer exists", because the source never re-checks
after the force-kill. -/
theorem kill_process_true_without_confirmation :
    ¬ (((kill_process stubbornProc).ret = true) →
        ((kill_process stubbornProc).finalAlive = false)) := by
  decide

/-- **C6 amended**: `kill_process` sends a graceful SIGTERM; when that
delivery succeeds it waits a 500ms grace and force-kills if the process is
still running; it returns `true` exactly when the SIGTERM command
succeeded — without re-confirming that the PID is gone. (Only a process
that terminates within the grace is guaranteed gone on a `true` return.) -/
theorem kill_process_escalation (env : ProcEnv) :
    (kill_process env).ret = env.termOk ∧
    (kill_process env).sentForceKill = (env.termOk && env.aliveAfterGrace) ∧
    (env.termOk = true → (kill_process env).graceMs = 500) ∧
    (env.termOk = true → env.aliveAfterGrace = false →
      (kill_process env).finalAlive = false) := by
  rcases env with ⟨a, t, g, k⟩
  cases t <;> cases g <;> simp [kill_process]

/-- Witness for C6: a process that dies within the grace period — kill
returns true, force-kill was not needed, and the process is gone. -/
theorem kill_process_escalation_witness :
    (kill_process gracefulProc).graceMs = 500 ∧
    (kill_process gracefulProc).finalAlive = false :=
  ⟨(kill_process_escalation gracefulProc).2.2.1 rfl,
   (kill_process_escalation gracefulProc).2.2.2 rfl rfl⟩

/-! ## C5: download retry bound and fallback -/

/-- **C5**: a download whose HTTP transfer fails on every attempt makes
exactly 3 HTTP attempts, deletes the partial file after each failure
(3 deletions), sleeps `base_delay * attempt_number` between attempts
(linear backoff: 2s then 4s), falls back exactly once to curl, and — when
curl also fails — returns an error containing both the last HTTP failure
and the curl failure. -/
theorem download_retry_and_fallback (env : DlEnv) (e1 e2 e3 : String)
    (h1 : env.attemptResult 1 = Except.error e1)
    (h2 : env.attemptResult 2 = Except.error e2)
    (h3 : env.attemptResult 3 = Except.error e3) :
    (download_file_with_progress env).httpAttempts = 3 ∧
    (download_file_with_progress env).deletions = 3 ∧
    (download_file_with_progress env).delaysSecs =
      [DOWNLOAD_RETRY_DELAY_SECS * 1, DOWNLOAD_RETRY_DELAY_SECS * 2] ∧
    (download_file_with_progress env).curlRuns = 1 ∧
    (∀ ec, env.curlResult = Except.error ec →
      (download_file_with_progress env).outcome =
        Except.error ("Download failed after " ++
          toString DOWNLOAD_MAX_RETRIES ++ " attempts: " ++
          (e3 ++ " | curl fallback failed: " ++ ec)) ∧
      ∃ pre mid,
        ("Download failed after " ++ toString DOWNLOAD_MAX_RETRIES ++
            " attempts: " ++ (e3 ++ " | curl fallback failed: " ++ ec)) =
          pre ++ e3 ++ mid ++ ec) := by
  have hrange : (List.range DOWNLOAD_MAX_RETRIES).map (fun i => i + 1) =
      [1, 2, 3] := rfl
  have hatt : runAttempts env [1, 2, 3] =
      { ok := false, lastError := some e3, attemptsMade := 3, deletions := 3
        delaysSecs := [DOWNLOAD_RETRY_DELAY_SECS * 1,
                       DOWNLOAD_RETRY_DELAY_SECS * 2] } := by
    simp [runAttempts, h1, h2, h3]
  have hdecomp : ∃ pre mid,
      ∀ ec : String,
        ("Download failed after " ++ toString DOWNLOAD_MAX_RETRIES ++
            " attempts: " ++ (e3 ++ " | curl fallback failed: " ++ ec)) =
          pre ++ e3 ++ mid ++ ec := by
    refine ⟨"Download failed after " ++ toString DOWNLOAD_MAX_RETRIES ++
      " attempts: ", " | curl fallback failed: ", fun ec => ?_⟩
    simp [String.append_assoc]
  rcases hc : env.curlResult with ec | u
  · refine ⟨?_, ?_, ?_, ?_, ?_⟩ <;>
      simp [download_file_with_progress, hrange, hatt, hc]
    rcases hdecomp with ⟨pre, mid, hdec⟩
    exact ⟨pre, mid, hdec ec⟩
  · refine ⟨?_, ?_, ?_, ?_, ?_⟩ <;>
      simp [download_file_with_progress, hrange, hatt, hc]

/-- Witness for C5: every transport attempt fails with "connection reset"
and curl fails with "curl exit 6"; the error text carries both. -/
theorem download_retry_and_fallback_witness :
    (download_file_with_progress cexDlEnv).httpAttempts = 3 ∧
    (download_file_with_progress cexDlEnv).outcome =
      Except.error ("Download failed after " ++
        toString DOWNLOAD_MAX_RETRIES ++ " attempts: " ++
        ("connection reset" ++ " | curl fallback failed: " ++
          "curl exit 6")) :=
  ⟨(download_retry_and_fallback cexDlEnv "connection reset"
      "connection reset" "connection reset" rfl rfl rfl).1,
   ((download_retry_and_fallback cexDlEnv "connection reset"
      "connection reset" "connection reset" rfl rfl rfl).2.2.2.2
      "curl exit 6" rfl).1⟩

/-! ## C8: streaming progress reporting -/

theorem cumSums_le (d : Nat) (l : List Nat) :
    ∀ x ∈ cumSums d l, x ≤ d + l.sum := by
  induction l generalizing d with
  | nil => simp [cumSums]
  | cons c rest ih =>
      intro x hx
      simp only [cumSums, List.mem_cons] at hx
      rcases hx with rfl | hx
      · simp only [List.sum_cons]
        omega
      · have := ih (d + c) x hx
        simp only [List.sum_cons]
        omega

/-- **C8 counterexample**: with a known total of 100 bytes and a single
1-byte chunk, the cumulative count crosses the integer percentage 1 (on
the claimed 0–100 scale), so the claim predicts exactly one progress
invocation — but the source computes `(downloaded/total)*50.0 as u8`,
which is still 0, so no message is sent. -/
theorem download_progress_not_percent_scale :
    ¬ ((download_stream_progress (some 100) [1] 0 0).length = 1) := by
  decide

/-- **C8 amended**: when the total size is known (`some t`), a progress
message is emitted exactly when the truncated *half*-scale value
`downloaded * 50 / total` (0–50, not 0–100) exceeds every previous value:
the emitted percents are precisely the new maxima of that sequence along
the cumulative byte counts, each message records the cumulative bytes and
the total, and — as long as no more than `total` bytes arrive — every
emitted percent is at most 50. When the total size is unknown, no
progress message is emitted at all during streaming. -/
theorem download_stream_progress_halfscale :
    (∀ (chunks : List Nat) (d lp : Nat),
      download_stream_progress none chunks d lp = []) ∧
    (∀ (t : Nat) (chunks : List Nat) (d lp : Nat),
      (download_stream_progress (some t) chunks d lp).map
          (fun m => m.percent) =
        newMaxima lp ((cumSums d chunks).map (fun x => x * 50 / t))) ∧
    (∀ (t : Nat) (chunks : List Nat) (d lp : Nat) (msg : ProgressMsg),
      msg ∈ download_stream_progress (some t) chunks d lp →
        msg.bytesTotal = t ∧
        msg.percent = msg.bytesDownloaded * 50 / t ∧
        lp < msg.percent ∧
        msg.bytesDownloaded ∈ cumSums d chunks) ∧
    (∀ (t : Nat) (chunks : List Nat) (d lp : Nat) (msg : ProgressMsg),
      0 < t → d + chunks.sum ≤ t →
      msg ∈ download_stream_progress (some t) chunks d lp →
        msg.percent ≤ 50) := by
  have hnone : ∀ (chunks : List Nat) (d lp : Nat),
      download_stream_progress none chunks d lp = [] := by
    intro chunks
    induction chunks with
    | nil => intro d lp; rfl
    | cons c rest ih => intro d lp; simpa [download_stream_progress] using ih _ _
  have hmap : ∀ (t : Nat) (chunks : List Nat) (d lp : Nat),
      (download_stream_progress (some t) chunks d lp).map
          (fun m => m.percent) =
        newMaxima lp ((cumSums d chunks).map (fun x => x * 50 / t)) := by
    intro t chunks
    induction chunks with
    | nil => intro d lp; rfl
    | cons c rest ih =>
        intro d lp
        by_cases h : lp < (d + c) * 50 / t <;>
          simp [download_stream_progress, cumSums, newMaxima, h, ih]
  have hmem : ∀ (t : Nat) (chunks : List Nat) (d lp : Nat)
      (msg : ProgressMsg),
      msg ∈ download_stream_progress (some t) chunks d lp →
        msg.bytesTotal = t ∧
        msg.percent = msg.bytesDownloaded * 50 / t ∧
        lp < msg.percent ∧
        msg.bytesDownloaded ∈ cumSums d chunks := by
    intro t chunks
    induction chunks with
    | nil => intro d lp msg hm; simp [download_stream_progress] at hm
    | cons c rest ih =>
        intro d lp msg hm
        by_cases h : lp < (d + c) * 50 / t
        · simp only [download_stream_progress, if_pos h, List.mem_cons] at hm
          rcases hm with rfl | hm
          · exact ⟨rfl, rfl, h, by simp [cumSums]⟩
          · have := ih (d + c) ((d + c) * 50 / t) msg hm
            refine ⟨this.1, this.2.1, lt_trans h this.2.2.1, ?_⟩
            simp [cumSums, this.2.2.2]
        · simp only [download_stream_progress, if_neg h] at hm
          have := ih (d + c) lp msg hm
          exact ⟨this.1, this.2.1, this.2.2.1, by simp [cumSums, this.2.2.2]⟩
  refine ⟨hnone, hmap, hmem, ?_⟩
  intro t chunks d lp msg ht hsum hm
  rcases hmem t chunks d lp msg hm with ⟨_, hp, _, hb⟩
  have hble : msg.bytesDownloaded ≤ t :=
    le_trans (cumSums_le d chunks msg.bytesDownloaded hb) hsum
  have h1 : msg.bytesDownloaded * 50 ≤ t * 50 :=
    Nat.mul_le_mul_right 50 hble
  have h2 : msg.bytesDownloaded * 50 / t ≤ t * 50 / t :=
    Nat.div_le_div_right h1
  have h3 : t * 50 / t = 50 := by
    rw [Nat.mul_comm]
    exact Nat.mul_div_cancel 50 ht
  rw [hp]
  omega

/-- Witness for C8 (amended): total 200 bytes in two 100-byte chunks emits
percents 25 then 50, and every emitted percent is at most 50. -/
theorem download_stream_progress_halfscale_witness :
    ((download_stream_progress (some 200) [100, 100] 0 0).map
        (fun m => m.percent) = [25, 50]) ∧
    (∀ msg ∈ download_stream_progress (some 200) [100, 100] 0 0,
      msg.percent ≤ 50) := by
  constructor
  · rw [download_stream_progress_halfscale.2.1 200 [100, 100] 0 0]
    decide
  · intro msg hm
    exact download_stream_progress_halfscale.2.2.2 200 [100, 100] 0 0 msg
      (by decide) (by decide) hm

/-! ## C2: exactly one ToolResult per command, none for silent variants -/

theorem filter_toolResult_single (id : String) (r : Except String String) :
    [send_tool_result id r].filter OutgoingMessage.isToolResult =
      [send_tool_result id r] := by
  cases r <;> rfl

theorem filter_toolResult_progress_nil (id : String)
    (l : List (String × Option Nat × String)) :
    (l.map (fun pe => OutgoingMessage.progress id pe.1 pe.2.1 pe.2.2)).filter
        OutgoingMessage.isToolResult = [] := by
  induction l with
  | nil => rfl
  | cons pe rest ih => simpa [OutgoingMessage.isToolResult] using ih

/-- **C2**: for every decoded inbound frame: a recognized command variant
carrying a correlation id produces exactly one `ToolResult`, bearing that
id, built from its routed handler result — a handler error becoming
`success: false` with the error message rather than ending the dispatch
loop (the embedding is a total function, so no input aborts it); the
`unknown` catch-all and the informational `status_update` produce no
outgoing message at all. -/
theorem dispatcher_exactly_one_tool_result (env : HandlerEnv)
    (m : IncomingMessage) :
    (∀ i, m.msgId = some i →
      ∃ r, routedResult env m = some r ∧
        (handle_incoming_message env m).filter OutgoingMessage.isToolResult =
          [send_tool_result i r] ∧
        ∀ e, r = Except.error e →
          send_tool_result i r =
            OutgoingMessage.toolResult i false none (some e)) ∧
    (m.msgId = none → handle_incoming_message env m = []) := by
  have herr : ∀ (i : String) (r : Except String String),
      ∀ e, r = Except.error e →
        send_tool_result i r =
          OutgoingMessage.toolResult i false none (some e) := by
    intro i r e he
    subst he
    rfl
  cases m
  all_goals
    simp only [IncomingMessage.msgId, handle_incoming_message, routedResult,
      Option.some.injEq, forall_eq', reduceCtorEq, false_implies,
      imp_self, and_true, true_and, List.filter_append,
      filter_toolResult_single, filter_toolResult_progress_nil,
      List.nil_append, implies_true, and_self]
  all_goals
    exact ⟨_, rfl, rfl, herr _ _⟩

/-- Witness for C2: a `stop_braindrive` command whose handler fails emits
exactly one ToolResult — `success: false` with the error message — and a
`status_update` frame emits nothing. -/
theorem dispatcher_exactly_one_tool_result_witness :
    ((handle_incoming_message cexHandlerEnv
        (IncomingMessage.stopBraindrive "req-1")).filter
        OutgoingMessage.isToolResult =
      [OutgoingMessage.toolResult "req-1" false none (some "stop failed")]) ∧
    (handle_incoming_message cexHandlerEnv
        (IncomingMessage.statusUpdate true) = []) := by
  constructor
  · rcases (dispatcher_exactly_one_tool_result cexHandlerEnv
        (IncomingMessage.stopBraindrive "req-1")).1 "req-1" rfl
      with ⟨r, hr, hfilter, herr⟩
    have hr' : r = Except.error "stop failed" := by
      have : some r = some (Except.error "stop failed") := by
        rw [← hr]
        rfl
      exact (Option.some.injEq _ _).mp this.symm |>.symm
    rw [hfilter, herr "stop failed" hr']
  · exact (dispatcher_exactly_one_tool_result cexHandlerEnv
      (IncomingMessage.statusUpdate true)).2 rfl

/-! ## C3: idempotent start -/

/-- **C3**: when both slots hold a cached record with `running = true` and
the prober confirms each recorded port live (and the installation checks
pass, which the source runs first), `start_braindrive` returns
`success = true` with `already_running = true` and the recorded ports,
leaves the supervisor state unchanged, spawns nothing and kills nothing —
its only events are the snapshot read and the two confirmation probes.
Hence a second call right after a successful start is a no-op. -/
theorem start_idempotent (env : StartEnv) (fp bp : Nat)
    (st : BrainDriveState) (b f : ServiceInfo)
    (hRe : env.repoResolve = Except.ok ())
    (hRepo : env.repoExists = true)
    (hBD : env.backendDirExists = true)
    (hFD : env.frontendDirExists = true)
    (hSb : st.backend = some b) (hbr : b.running = true)
    (hbi : env.portInUse b.port = true)
    (hSf : st.frontend = some f) (hfr : f.running = true)
    (hfi : env.portInUse f.port = true) :
    (start_braindrive env fp bp st).outcome =
      Except.ok { success := true
                  message := "BrainDrive is already running"
                  alreadyRunning := true
                  backendPort := some b.port
                  frontendPort := some f.port } ∧
    (start_braindrive env fp bp st).state = st ∧
    (start_braindrive env fp bp st).events =
      [Ev.lockAcquire, Ev.stateRead, Ev.lockRelease,
       Ev.probe b.port, Ev.probe f.port] ∧
    spawnCount (start_braindrive env fp bp st).events = 0 ∧
    killedPids (start_braindrive env fp bp st).events = [] := by
  have hev : (start_braindrive env fp bp st).events =
      [Ev.lockAcquire, Ev.stateRead, Ev.lockRelease,
       Ev.probe b.port, Ev.probe f.port] := by
    simp [start_braindrive, alreadyCheck, startSlot, slotRunOrSkip, hRe, hRepo, hBD, hFD, hSb, hSf, hbr, hbi, hfr,
      hfi]
  refine ⟨?_, ?_, hev, ?_, ?_⟩
  · simp [start_braindrive, alreadyCheck, startSlot, slotRunOrSkip, hRe, hRepo, hBD, hFD, hSb, hSf, hbr, hbi, hfr,
      hfi]
  · simp [start_braindrive, alreadyCheck, startSlot, slotRunOrSkip, hRe, hRepo, hBD, hFD, hSb, hSf, hbr, hbi, hfr,
      hfi]
  · rw [hev]
    simp [spawnCount, List.countP_cons, List.countP_nil]
  · rw [hev]
    simp [killedPids, List.filterMap_cons, List.filterMap_nil]

/-- Witness for C3: a state with both slots confirmed live on ports
8005/5173 makes start return `already_running` with no spawn. -/
theorem start_idempotent_witness :
    (start_braindrive
        { cexStartEnv with portInUse := fun _ => true }
        5173 8005
        { backend := some { name := "backend", pid := some 31, port := 8005,
                            running := true }
          frontend := some { name := "frontend", pid := some 32, port := 5173,
                             running := true } }).outcome =
      Except.ok { success := true
                  message := "BrainDrive is already running"
                  alreadyRunning := true
                  backendPort := some 8005
                  frontendPort := some 5173 } ∧
    spawnCount (start_braindrive
        { cexStartEnv with portInUse := fun _ => true }
        5173 8005
        { backend := some { name := "backend", pid := some 31, port := 8005,
                            running := true }
          frontend := some { name := "frontend", pid := some 32, port := 5173,
                             running := true } }).events = 0 := by
  have h := start_idempotent
    { cexStartEnv with portInUse := fun _ => true } 5173 8005
    { backend := some { name := "backend", pid := some 31, port := 8005,
                        running := true }
      frontend := some { name := "frontend", pid := some 32, port := 5173,
                         running := true } }
    { name := "backend", pid := some 31, port := 8005, running := true }
    { name := "frontend", pid := some 32, port := 5173, running := true }
    rfl rfl rfl rfl rfl rfl rfl rfl rfl rfl
  exact ⟨h.1, h.2.2.2.1⟩

/-! ## C4: first-fit port selection -/

/-- **C4**: port selection is first-fit. Generally,
`find_available_port` returns the preferred port when it is free and
otherwise the first free port of the ordered fallback list. Wired into
`start_braindrive` (shown for the backend slot, the frontend already
satisfied): a free preferred port is bound and reported; an occupied
preferred port with a free fallback binds and reports the first free
fallback; and with the preferred port and all fallbacks occupied, start
fails with the "No available backend ports" error whose text names the
preferred port and every fallback candidate. -/
theorem start_port_selection (env : StartEnv) (fp bp : Nat)
    (st : BrainDriveState) (f : ServiceInfo) (pid : Nat)
    (hRe : env.repoResolve = Except.ok ())
    (hRepo : env.repoExists = true)
    (hBD : env.backendDirExists = true)
    (hFD : env.frontendDirExists = true)
    (hSb : st.backend = none)
    (hSf : st.frontend = some f) (hfr : f.running = true)
    (hfi : env.portInUse f.port = true)
    (hsp : env.backendSpawn = Except.ok (some pid))
    (hw : env.backendWaitOk = true) :
    (∀ (inUse : Nat → Bool) (pref : Nat) (fb : List Nat),
      find_available_port inUse pref fb =
        if inUse pref = false then some pref
        else fb.find? (fun q => !inUse q)) ∧
    (env.portInUse bp = false →
      ∃ r, (start_braindrive env fp bp st).outcome = Except.ok r ∧
        r.backendPort = some bp ∧ r.success = true) ∧
    (∀ p, env.portInUse bp = true →
      BACKEND_PORTS.find? (fun q => !env.portInUse q) = some p →
      ∃ r, (start_braindrive env fp bp st).outcome = Except.ok r ∧
        r.backendPort = some p ∧ r.success = true) ∧
    ((∀ c, c ∈ bp :: BACKEND_PORTS → env.portInUse c = true) →
      (start_braindrive env fp bp st).outcome =
        Except.error (noBackendPortsMsg bp) ∧
      ∀ c, c ∈ bp :: BACKEND_PORTS →
        ∃ pre post, noBackendPortsMsg bp = pre ++ toString c ++ post) := by
  refine ⟨?_, ?_, ?_, ?_⟩
  · intro inUse pref fb
    by_cases h : inUse pref <;> simp [find_available_port, h]
  · intro hfree
    have hfind : find_available_port env.portInUse bp BACKEND_PORTS =
        some bp := by
      simp [find_available_port, hfree]
    refine ⟨{ success := true
              message := "BrainDrive started (frontend was already running)"
              backendPort := some bp
              frontendPort := some f.port
              backendPid := some pid
              frontendPid := f.pid
              backendAlreadyRunning := some false
              frontendAlreadyRunning := some true }, ?_, rfl, rfl⟩
    simp [start_braindrive, alreadyCheck, startSlot, slotRunOrSkip, hRe, hRepo, hBD, hFD, hSb, hSf, hfr, hfi,
      hfind, hsp, hw]
  · intro p hbusy hfind'
    have hfind : find_available_port env.portInUse bp BACKEND_PORTS =
        some p := by
      simp [find_available_port, hbusy, hfind']
    refine ⟨{ success := true
              message := "BrainDrive started (frontend was already running)"
              backendPort := some p
              frontendPort := some f.port
              backendPid := some pid
              frontendPid := f.pid
              backendAlreadyRunning := some false
              frontendAlreadyRunning := some true }, ?_, rfl, rfl⟩
    simp [start_braindrive, alreadyCheck, startSlot, slotRunOrSkip, hRe, hRepo, hBD, hFD, hSb, hSf, hfr, hfi,
      hfind, hsp, hw]
  · intro hall
    have hbusy : env.portInUse bp = true := hall bp (by simp)
    have h05 : env.portInUse 8005 = true := hall 8005 (by simp [BACKEND_PORTS])
    have h06 : env.portInUse 8006 = true := hall 8006 (by simp [BACKEND_PORTS])
    have h07 : env.portInUse 8007 = true := hall 8007 (by simp [BACKEND_PORTS])
    have hfind : find_available_port env.portInUse bp BACKEND_PORTS =
        none := by
      simp [find_available_port, BACKEND_PORTS, hbusy, h05, h06, h07,
        List.find?]
    constructor
    · simp [start_braindrive, alreadyCheck, startSlot, slotRunOrSkip, hRe, hRepo, hBD, hFD, hSb, hSf, hfr, hfi,
        hfind]
    · intro c hc
      simp only [BACKEND_PORTS, List.mem_cons, List.mem_singleton,
        List.not_mem_nil, or_false] at hc
      rcases hc with rfl | rfl | rfl | rfl
      · exact ⟨"No available backend ports. Tried: ",
          ", " ++ toString BACKEND_PORTS, by
            simp [noBackendPortsMsg, String.append_assoc]⟩
      · exact ⟨"No available backend ports. Tried: " ++ toString bp ++ ", [",
          ", 8006, 8007]", by
            simp [noBackendPortsMsg, BACKEND_PORTS, String.append_assoc]
            rfl⟩
      · exact ⟨"No available backend ports. Tried: " ++ toString bp ++
            ", [8005, ", ", 8007]", by
            simp [noBackendPortsMsg, BACKEND_PORTS, String.append_assoc]
            rfl⟩
      · exact ⟨"No available backend ports. Tried: " ++ toString bp ++
            ", [8005, 8006, ", "]", by
            simp [noBackendPortsMsg, BACKEND_PORTS, String.append_assoc]
            rfl⟩

/-- Witness for C4: preferred backend port 8005 occupied, fallback 8006
free — start binds the backend to 8006 and reports it. -/
theorem start_port_selection_witness :
    ∃ r, (start_braindrive busyPortsEnv 5173 8005
        frontendOnlyState).outcome = Except.ok r ∧
      r.backendPort = some 8006 ∧ r.success = true :=
  (start_port_selection busyPortsEnv 5173 8005 frontendOnlyState
    { name := "frontend", pid := some 42, port := 5173, running := true }
    100 rfl rfl rfl rfl rfl rfl rfl rfl rfl rfl).2.2.1 8006 rfl (by decide)

/-! ## C1: partial failure (backend up, frontend down) -/

theorem killedPids_append (a b : List Ev) :
    killedPids (a ++ b) = killedPids a ++ killedPids b := by
  simp [killedPids, List.filterMap_append]

theorem killedPids_probeUntilFree (inUse : Nat → Bool) (l : List Nat) :
    killedPids (probeUntilFree inUse l) = [] := by
  induction l with
  | nil => rfl
  | cons p ps ih =>
      by_cases h : inUse p
      · simpa [probeUntilFree, h, killedPids] using ih
      · simp [probeUntilFree, h, killedPids]

theorem killedPids_findPortEvents (inUse : Nat → Bool) (preferred : Nat)
    (fb : List Nat) : killedPids (findPortEvents inUse preferred fb) = [] := by
  by_cases h : inUse preferred
  · simpa [findPortEvents, h, killedPids]
      using killedPids_probeUntilFree inUse fb
  · simp [findPortEvents, h, killedPids]

/-- **C1 counterexample**: in `cexStartEnv` (empty initial state, backend
spawned as PID 100 and its port confirmed, frontend spawned as PID 200 and
its port never up) the call does return the partial result
(`success: false, "partial": true`) and kills only the frontend's PID 200 —
but the backend is NOT recorded as running in the supervisor state: no
ServiceRecord is written on this path (the single state-commit happens
only after both waits succeed), so `state.backend` is still `none`. -/
theorem start_partial_backend_not_recorded :
    isOkPartialFailure cexStartExec.outcome = true ∧
    killedPids cexStartExec.events = [200] ∧
    cexStartExec.state.backend = none := by
  decide

/-- **C1 amended**: if the backend slot starts successfully (fresh spawn,
port wait succeeds) but the frontend's port never comes up within its
bounded wait, `start_braindrive` returns `success = false, partial = true`
reporting the backend as usable (`backend_running: true`) and the frontend
as failed, and only the frontend's spawned PID is killed — the backend
process is not rolled back. However the supervisor state is left entirely
unchanged: the backend's ServiceRecord is NOT written (the single
state-commit happens only after both waits succeed), so the running
backend is untracked. -/
theorem start_partial_failure (env : StartEnv) (fp bp abp afp : Nat)
    (st : BrainDriveState) (bpid fpid : Nat)
    (hRe : env.repoResolve = Except.ok ())
    (hRepo : env.repoExists = true)
    (hBD : env.backendDirExists = true)
    (hFD : env.frontendDirExists = true)
    (hSb : st.backend = none) (hSf : st.frontend = none)
    (hbfind : find_available_port env.portInUse bp BACKEND_PORTS = some abp)
    (hffind : find_available_port env.portInUse fp FRONTEND_PORTS = some afp)
    (hbsp : env.backendSpawn = Except.ok (some bpid))
    (hbw : env.backendWaitOk = true)
    (hfsp : env.frontendSpawn = Except.ok (some fpid))
    (hfw : env.frontendWaitOk = false) :
    (start_braindrive env fp bp st).outcome = Except.ok
      { success := false
        message := "Backend started but frontend failed to start within 45 seconds"
        partFlag := true
        backendPort := some abp
        backendRunning := some true
        frontendRunning := some false
        errorMsg := some "Frontend startup timed out. Check ~/.braindrive-installer/logs/ for details." } ∧
    (start_braindrive env fp bp st).state = st ∧
    killedPids (start_braindrive env fp bp st).events = [fpid] := by
  refine ⟨?_, ?_, ?_⟩
  · simp [start_braindrive, alreadyCheck, startSlot, slotRunOrSkip, hRe, hRepo, hBD, hFD, hSb, hSf, hbfind, hffind,
      hbsp, hbw, hfsp, hfw]
  · simp [start_braindrive, alreadyCheck, startSlot, slotRunOrSkip, hRe, hRepo, hBD, hFD, hSb, hSf, hbfind, hffind,
      hbsp, hbw, hfsp, hfw]
  · have h1 := killedPids_findPortEvents env.portInUse bp BACKEND_PORTS
    have h2 := killedPids_findPortEvents env.portInUse fp FRONTEND_PORTS
    simp only [killedPids] at h1 h2
    simp [start_braindrive, alreadyCheck, startSlot, slotRunOrSkip, hRe, hRepo, hBD, hFD, hSb, hSf, hbfind, hffind,
      hbsp, hbw, hfsp, hfw, killedPids, h1, h2]

/-- Witness for C1 (amended): the concrete partial-failure run — partial
result, state unchanged (empty), only PID 200 killed. -/
theorem start_partial_failure_witness :
    cexStartExec.outcome = Except.ok
      { success := false
        message := "Backend started but frontend failed to start within 45 seconds"
        partFlag := true
        backendPort := some 8005
        backendRunning := some true
        frontendRunning := some false
        errorMsg := some "Frontend startup timed out. Check ~/.braindrive-installer/logs/ for details." } ∧
    cexStartExec.state = {} ∧
    killedPids cexStartExec.events = [200] :=
  start_partial_failure cexStartEnv 5173 8005 8005 5173 {} 100 200
    rfl rfl rfl rfl rfl rfl rfl rfl rfl rfl rfl rfl

/-! ## C9: mutex discipline -/

theorem lockState_append (a b : List Ev) (s : Bool) :
    lockState (a ++ b) s = lockState b (lockState a s) := by
  induction a generalizing s with
  | nil => rfl
  | cons e tr ih => cases e <;> simp [lockState, ih]

theorem lockPlainOnly_findPortEvents (inUse : Nat → Bool) (preferred : Nat)
    (fb : List Nat) :
    lockPlainOnly (findPortEvents inUse preferred fb) false = true :=
  (noLock_lockPlainOnly _ (noLock_findPortEvents inUse preferred fb)).1

theorem lockState_findPortEvents (inUse : Nat → Bool) (preferred : Nat)
    (fb : List Nat) :
    lockState (findPortEvents inUse preferred fb) false = false :=
  (noLock_lockPlainOnly _ (noLock_findPortEvents inUse preferred fb)).2

theorem noLock_alreadyCheck (inUse : Nat → Bool) (rec : Option ServiceInfo)
    (p : Nat) : noLock (alreadyCheck inUse rec p).2.2.2 = true := by
  rcases rec with _ | s
  · rfl
  · by_cases hr : s.running <;> by_cases hi : inUse s.port <;>
      simp [alreadyCheck, hr, hi, noLock, Ev.isLockEvent]

theorem noLock_startSlot (inUse : Nat → Bool)
    (spawn : Except String (Option Nat)) (waitOk : Bool)
    (preferred : Nat) (fb : List Nat) :
    noLock (startSlot inUse spawn waitOk preferred fb).2 = true := by
  simp only [startSlot]
  repeat' split
  all_goals
    simp only [noLock_append, noLock_findPortEvents, Bool.true_and]
  all_goals rfl

theorem noLock_slotRunOrSkip (already : Bool) (cached : Nat × Option Nat)
    (inUse : Nat → Bool) (spawn : Except String (Option Nat))
    (waitOk : Bool) (preferred : Nat) (fb : List Nat) (m1 m2 : String) :
    noLock (slotRunOrSkip already cached
      (startSlot inUse spawn waitOk preferred fb) m1 m2).2 = true := by
  by_cases h : already
  · simp [slotRunOrSkip, h, noLock]
  · simpa [slotRunOrSkip, h]
      using noLock_startSlot inUse spawn waitOk preferred fb

theorem lockPlainOnly_alreadyCheck (inUse : Nat → Bool)
    (rec : Option ServiceInfo) (p : Nat) :
    lockPlainOnly (alreadyCheck inUse rec p).2.2.2 false = true :=
  (noLock_lockPlainOnly _ (noLock_alreadyCheck inUse rec p)).1

theorem lockState_alreadyCheck (inUse : Nat → Bool)
    (rec : Option ServiceInfo) (p : Nat) :
    lockState (alreadyCheck inUse rec p).2.2.2 false = false :=
  (noLock_lockPlainOnly _ (noLock_alreadyCheck inUse rec p)).2

theorem lockPlainOnly_startSlot (inUse : Nat → Bool)
    (spawn : Except String (Option Nat)) (waitOk : Bool)
    (preferred : Nat) (fb : List Nat) :
    lockPlainOnly (startSlot inUse spawn waitOk preferred fb).2 false =
      true :=
  (noLock_lockPlainOnly _ (noLock_startSlot inUse spawn waitOk preferred fb)).1

theorem lockState_startSlot (inUse : Nat → Bool)
    (spawn : Except String (Option Nat)) (waitOk : Bool)
    (preferred : Nat) (fb : List Nat) :
    lockState (startSlot inUse spawn waitOk preferred fb).2 false = false :=
  (noLock_lockPlainOnly _ (noLock_startSlot inUse spawn waitOk preferred fb)).2

theorem lockPlainOnly_slotRunOrSkip (already : Bool)
    (cached : Nat × Option Nat) (inUse : Nat → Bool)
    (spawn : Except String (Option Nat)) (waitOk : Bool)
    (preferred : Nat) (fb : List Nat) (m1 m2 : String) :
    lockPlainOnly (slotRunOrSkip already cached
      (startSlot inUse spawn waitOk preferred fb) m1 m2).2 false = true :=
  (noLock_lockPlainOnly _
    (noLock_slotRunOrSkip already cached inUse spawn waitOk preferred fb
      m1 m2)).1

theorem lockState_slotRunOrSkip (already : Bool)
    (cached : Nat × Option Nat) (inUse : Nat → Bool)
    (spawn : Except String (Option Nat)) (waitOk : Bool)
    (preferred : Nat) (fb : List Nat) (m1 m2 : String) :
    lockState (slotRunOrSkip already cached
      (startSlot inUse spawn waitOk preferred fb) m1 m2).2 false = false :=
  (noLock_lockPlainOnly _
    (noLock_slotRunOrSkip already cached inUse spawn waitOk preferred fb
      m1 m2)).2

theorem start_lock_discipline (env : StartEnv) (fp bp : Nat)
    (st : BrainDriveState) :
    lockPlainOnly (start_braindrive env fp bp st).events false = true ∧
    lockState (start_braindrive env fp bp st).events false = false := by
  simp only [start_braindrive]
  repeat' split
  all_goals
    simp [lockPlainOnly_append, lockState_append,
      lockPlainOnly_alreadyCheck, lockState_alreadyCheck,
      lockPlainOnly_startSlot, lockState_startSlot,
      lockPlainOnly_slotRunOrSkip, lockState_slotRunOrSkip,
      lockPlainOnly, lockState, Ev.isPlainAccess]

theorem stop_lock_discipline (env : StopEnv) (st : BrainDriveState) :
    lockPlainOnly (stop_braindrive env st).2.2 false = true ∧
    lockState (stop_braindrive env st).2.2 false = false := by
  simp only [stop_braindrive, stopSlot]
  repeat' split
  all_goals
    simp_all [lockPlainOnly_append, lockState_append,
      lockPlainOnly, lockState, Ev.isPlainAccess]

/-- **C9 counterexample**: `get_braindrive_status` holds the state mutex
from its first line to the end of the function, so both
`is_port_in_use` probes — network calls — run inside the critical
section (shown here on the empty state, probing the default ports). -/
theorem status_probes_under_lock :
    lockPlainOnly (get_braindrive_status (fun _ => false) {}).2 false =
      false := by
  decide

/-- **C9 amended**: in `start_braindrive`, `stop_braindrive` and
`restart_braindrive` the `SupervisorState` mutex is held only for plain
reads and writes of the record — never across a port probe, a spawn, a
kill, or a timed wait. `get_braindrive_status`, however, violates the
discipline: it keeps the lock across its two port probes. -/
theorem lock_discipline_supervisor :
    (∀ (env : StartEnv) (fp bp : Nat) (st : BrainDriveState),
      lockPlainOnly (start_braindrive env fp bp st).events false = true) ∧
    (∀ (env : StopEnv) (st : BrainDriveState),
      lockPlainOnly (stop_braindrive env st).2.2 false = true) ∧
    (∀ (se : StopEnv) (env : StartEnv) (fp bp : Nat) (st : BrainDriveState),
      lockPlainOnly (restart_braindrive se env fp bp st).2.2 false = true) ∧
    (∀ (inUse : Nat → Bool) (st : BrainDriveState),
      lockPlainOnly (get_braindrive_status inUse st).2 false = false) := by
  refine ⟨?_, ?_, ?_, ?_⟩
  · intro env fp bp st
    exact (start_lock_discipline env fp bp st).1
  · intro env st
    exact (stop_lock_discipline env st).1
  · intro se env fp bp st
    have hs := stop_lock_discipline se st
    have ht := start_lock_discipline env fp bp (stop_braindrive se st).2.1
    have hsl : lockPlainOnly [Ev.sleepMs 500] false = true := rfl
    have hsl2 : lockState [Ev.sleepMs 500] false = false := rfl
    have hev : (restart_braindrive se env fp bp st).2.2 =
        (stop_braindrive se st).2.2 ++ [Ev.sleepMs 500] ++
          (start_braindrive env fp bp (stop_braindrive se st).2.1).events := by
      rcases h : (start_braindrive env fp bp
          (stop_braindrive se st).2.1).outcome with e | r <;>
        simp [restart_braindrive, h]
    rw [hev]
    simp only [lockPlainOnly_append, lockState_append]
    simp only [hs.1, hs.2, hsl, hsl2, ht.1, Bool.true_and, Bool.and_true]
  · intro inUse st
    simp [get_braindrive_status, lockPlainOnly, Ev.isPlainAccess]

end BrainDrive
